import Mathlib

/-!
Verification development for the CScreenkey_v1 repository (termkey), an
on-screen display tool that shows keyboard and mouse input centered in a
terminal.  The repository contains several variants of the same program:

* `termkey.c` — the named main variant (single mouse button, no repeat
  compression, inline modifier-prefix construction in Ctrl-first order);
* `src/unnamed/part_001` and the first variant of `src/unnamed/part_003` —
  variants building the modifier prefix with `build_modifiers_message`,
  iterating over a `ModifierKey` enum whose order starts with Shift;
* `src/unnamed/part_002` — the "Professional" variant with key-repeat
  compression (`REPEAT_THRESHOLD_MS`), single mouse button;
* the third variant inside `src/unnamed/part_003` — the "v2.0" variant
  with a multi-button mouse tracker (`handle_mouse_button_press`,
  `handle_mouse_button_release`, `update_mouse_display`).

The Lean definitions below are direct shallow embeddings of the C functions,
keeping the source's names where possible.  Machine integers are modelled as
`Nat`/`Int` (no value in these programs approaches overflow and buffer
truncation limits are never reached by the short labels considered here);
C functions returning `NULL`-able pointers are modelled with `Option`.
The external platform services (X11 `XKeysymToString`, keycode→keysym
translation) are parameters of the embedding.
-/

namespace CScreenkey

/-! ### X11 keysym constants (from X11/keysym.h, as used by the sources) -/

def xkShiftL : Nat := 0xffe1
def xkShiftR : Nat := 0xffe2
def xkControlL : Nat := 0xffe3
def xkControlR : Nat := 0xffe4
def xkMetaL : Nat := 0xffe7
def xkMetaR : Nat := 0xffe8
def xkAltL : Nat := 0xffe9
def xkAltR : Nat := 0xffea
def xkSuperL : Nat := 0xffeb
def xkSuperR : Nat := 0xffec
def xkIsoLevel3Shift : Nat := 0xfe03
def xkLowerA : Nat := 0x61
def xkLowerB : Nat := 0x62

/-! ### `struct timeval` and `get_time_diff_ms` (part_002 lines 163-169,
part_003 v2.0 lines 1139-1145; identical) -/

structure Timeval where
  sec : Int
  usec : Int
deriving DecidableEq

/-- `get_time_diff_ms`: millisecond difference, saturating to 1000000 when the
seconds differ by more than 1000; C integer division truncates toward zero. -/
def get_time_diff_ms (start e : Timeval) : Int :=
  let sec_diff := e.sec - start.sec
  let usec_diff := e.usec - start.usec
  if sec_diff > 1000 then 1000000 else sec_diff * 1000 + Int.tdiv usec_diff 1000

/-! ### Modifier state (termkey.c `ModifierState`, part_002 `app.mods`;
the enum-indexed array of part_001/part_003 holds the same eleven flags) -/

structure ModifierState where
  shift_l : Bool
  shift_r : Bool
  ctrl_l : Bool
  ctrl_r : Bool
  alt_l : Bool
  alt_r : Bool
  meta_l : Bool
  meta_r : Bool
  altgr : Bool
  super_l : Bool
  super_r : Bool
deriving DecidableEq

def ModifierState.initial : ModifierState :=
  ⟨false, false, false, false, false, false, false, false, false, false, false⟩

/-- The eleven modifier keys tracked by every variant. -/
inductive ModId where
  | shiftL | shiftR | ctrlL | ctrlR | altL | altR
  | metaL | metaR | altGr | superL | superR
deriving DecidableEq, Fintype

def ModId.keysym : ModId → Nat
  | .shiftL => xkShiftL
  | .shiftR => xkShiftR
  | .ctrlL => xkControlL
  | .ctrlR => xkControlR
  | .altL => xkAltL
  | .altR => xkAltR
  | .metaL => xkMetaL
  | .metaR => xkMetaR
  | .altGr => xkIsoLevel3Shift
  | .superL => xkSuperL
  | .superR => xkSuperR

/-- The display name each variant uses for a modifier (also the entry for it
in the special key map). -/
def ModId.name : ModId → String
  | .shiftL => "SHIFT_L"
  | .shiftR => "SHIFT_R"
  | .ctrlL => "CONTROL_L"
  | .ctrlR => "CONTROL_R"
  | .altL => "ALT_L"
  | .altR => "ALT_R"
  | .metaL => "META_L"
  | .metaR => "META_R"
  | .altGr => "ALTGR"
  | .superL => "SUPER_L"
  | .superR => "SUPER_R"

def ModifierState.get (m : ModifierState) : ModId → Bool
  | .shiftL => m.shift_l
  | .shiftR => m.shift_r
  | .ctrlL => m.ctrl_l
  | .ctrlR => m.ctrl_r
  | .altL => m.alt_l
  | .altR => m.alt_r
  | .metaL => m.meta_l
  | .metaR => m.meta_r
  | .altGr => m.altgr
  | .superL => m.super_l
  | .superR => m.super_r

/-- `update_modifier_state` (termkey.c lines 425-440; identically
`update_modifiers` in part_002/part_003): set the slot matching the keysym to
the pressed flag, no-op for every other keysym. -/
def update_modifier_state (keysym : Nat) (is_key_press : Bool)
    (m : ModifierState) : ModifierState :=
  if keysym = xkShiftL then { m with shift_l := is_key_press }
  else if keysym = xkShiftR then { m with shift_r := is_key_press }
  else if keysym = xkControlL then { m with ctrl_l := is_key_press }
  else if keysym = xkControlR then { m with ctrl_r := is_key_press }
  else if keysym = xkAltL then { m with alt_l := is_key_press }
  else if keysym = xkAltR then { m with alt_r := is_key_press }
  else if keysym = xkMetaL then { m with meta_l := is_key_press }
  else if keysym = xkMetaR then { m with meta_r := is_key_press }
  else if keysym = xkIsoLevel3Shift then { m with altgr := is_key_press }
  else if keysym = xkSuperL then { m with super_l := is_key_press }
  else if keysym = xkSuperR then { m with super_r := is_key_press }
  else m

/-- The `is_modifier_key` test (termkey.c lines 484-489 and the identical
`is_modifier` tests in the other variants). -/
def is_modifier_keysym (keysym : Nat) : Bool :=
  keysym == xkShiftL || keysym == xkShiftR ||
  keysym == xkControlL || keysym == xkControlR ||
  keysym == xkAltL || keysym == xkAltR ||
  keysym == xkMetaL || keysym == xkMetaR ||
  keysym == xkIsoLevel3Shift ||
  keysym == xkSuperL || keysym == xkSuperR

/-! ### The special key map (`special_key_map` in termkey.c lines 60-99;
the same table appears in part_002 and part_003) -/

def special_key_map : List (Nat × String) :=
  [(xkShiftL, "SHIFT_L"), (xkShiftR, "SHIFT_R"),
   (xkControlL, "CONTROL_L"), (xkControlR, "CONTROL_R"),
   (xkAltL, "ALT_L"), (xkAltR, "ALT_R"),
   (xkMetaL, "META_L"), (xkMetaR, "META_R"),
   (xkIsoLevel3Shift, "ALTGR"),
   (xkSuperL, "SUPER_L"), (xkSuperR, "SUPER_R"),
   (0x27, "APOSTROPHE (\x27)"), (0x2f, "SLASH (/)"),
   (0x5c, "BACKSLASH (\\)"),
   (0xff51, "ARROW LEFT"), (0xff53, "ARROW RIGHT"),
   (0xff52, "ARROW UP"), (0xff54, "ARROW DOWN"),
   (0xffaf, "KP_DIVIDE (/)"), (0xffaa, "KP_MULTIPLY (*)"),
   (0xffad, "KP_SUBTRACT (-)"), (0xffab, "KP_ADD (+)"),
   (0x5b, "BRACKETLEFT ([)"), (0x5d, "BRACKETRIGHT (])"),
   (0x2c, "COMMA (,)"), (0x2e, "PERIOD (.)"),
   (0xfe51, "DEAD_ACUTE (´)"), (0xfe53, "DEAD_TILDE (~)"),
   (0xfe5b, "DEAD_CEDILLA (Ç)"),
   (0x2d, "MINUS (-)"), (0x3d, "EQUAL (=)"),
   (0x3b, "SEMICOLON (;)"),
   (0xff55, "PAGE UP"), (0xff56, "PAGE DOWN"),
   (0xff50, "HOME"), (0xff57, "END")]

/-- The linear scan over `special_key_map` performed by every variant's
resolver. -/
def specialLookup (keysym : Nat) : Option String :=
  (special_key_map.find? (fun p => p.1 == keysym)).map (·.2)

/-- Modelled from the spec: the platform's default symbol-to-string
conversion (X11 `XKeysymToString`), which is external to the repository.
It is partial: it returns no string for key codes that have no platform
symbol (for example `NoSymbol` = 0).  This small concrete table assigns the
lowercase-letter symbols used in the traces below and nothing else. -/
def xKeysymToStringModel : Nat → Option String := fun k =>
  if k == xkLowerA then some "a"
  else if k == xkLowerB then some "b"
  else none

/-- The per-character `toupper` loop every variant runs over the resolved
key name (e.g. termkey.c lines 479-481). -/
def to_uppercase (s : String) : String :=
  String.mk (s.data.map Char.toUpper)

/-- Model of `strncmp(arg, pre, strlen(pre)) == 0` (the option-prefix tests
of the argument parsers); the arguments are ASCII, so characters coincide
with bytes. -/
def strStartsWith (s pre : String) : Bool :=
  String.mk (s.data.take pre.length) == pre

/-- Model of pointer arithmetic `arg + n`: the string without its first
`n` characters. -/
def strDrop (s : String) (n : Nat) : String :=
  String.mk (s.data.drop n)

/-- `keysym_to_string` (termkey.c lines 401-410, part_001 lines 131-140 and
part_003 lines 437-446): special map first, otherwise the platform's
`XKeysymToString`, which may be NULL. -/
def keysym_to_string (plat : Nat → Option String) (keysym : Nat) :
    Option String :=
  match specialLookup keysym with
  | some n => some n
  | none => plat keysym

/-- `keysym_to_name` (part_002 lines 209-216 and part_003 v2.0
lines 1274-1281): special map first, then `XKeysymToString`, and the literal
"UNKNOWN" when that is NULL. -/
def keysym_to_name (plat : Nat → Option String) (keysym : Nat) : String :=
  match specialLookup keysym with
  | some n => n
  | none =>
    match plat keysym with
    | some n => n
    | none => "UNKNOWN"

/-! ### Intercepted events

`event_callback` receives an `xEvent` whose type field selects
KeyPress/KeyRelease/ButtonPress/ButtonRelease and whose `detail` field holds
the keycode or button number.  For key events every variant immediately
translates the keycode through the platform call `XkbKeycodeToKeysym`
(external to the repository), so events are modelled here as already
carrying the keysym. -/
inductive XEvent where
  | keyPress (keysym : Nat)
  | keyRelease (keysym : Nat)
  | buttonPress (button : Nat)
  | buttonRelease (button : Nat)
deriving DecidableEq

/-- The fixed order in which termkey.c (lines 494-515) and part_002
(lines 281-313) append held modifiers to the prefix: Ctrl-L, Ctrl-R, Alt-L,
Alt-R, Shift-L, Shift-R, Meta-L, Meta-R, AltGr, Super-L, Super-R. -/
def modOrder : List ModId :=
  [.ctrlL, .ctrlR, .altL, .altR, .shiftL, .shiftR,
   .metaL, .metaR, .altGr, .superL, .superR]

/-- The guarded appends of termkey.c lines 494-515 (and part_002
lines 281-313): the modifiers kept in the prefix, in `modOrder` order — a
modifier is kept when its flag is set and it is not the key being
composed. -/
def modMsgParts (m : ModifierState) (keysym : Nat) : List String :=
  (modOrder.filter (fun md => m.get md && keysym != md.keysym)).map ModId.name

/-- The prefix string those appends build: each kept name followed by
`" + "`. -/
def modifiers_message (m : ModifierState) (keysym : Nat) : String :=
  String.join ((modMsgParts m keysym).map (fun n => n ++ " + "))

namespace Termkey

/-- `mouse_button_to_name` (termkey.c lines 389-398; Button1..Button5 are
1..5). -/
def mouse_button_to_name (button : Nat) : String :=
  if button == 1 then "LEFT CLICK"
  else if button == 2 then "MIDDLE CLICK"
  else if button == 3 then "RIGHT CLICK"
  else if button == 4 then "WHEEL UP"
  else if button == 5 then "WHEEL DOWN"
  else "UNKNOWN BUTTON"

/-- The mutable globals of termkey.c touched by `event_callback`:
`modifiers` and `mouse_button_pressed`. -/
structure AppState where
  mods : ModifierState
  mouse_button_pressed : Nat
deriving DecidableEq

def AppState.initial : AppState := ⟨ModifierState.initial, 0⟩

/-- termkey.c lines 517-525: append the pressed key to the prefix, except
that a lone modifier (modifier key with empty prefix) is shown by its own
name alone. -/
def composeKeyMessage (m : ModifierState) (keysym : Nat)
    (uppercase_key : String) : String :=
  let pre := modifiers_message m keysym
  if !(is_modifier_keysym keysym && pre == "") then pre ++ uppercase_key
  else uppercase_key

/-- The KeyPress part of termkey.c `event_callback` (lines 461-537):
resolve the keysym (drop the event when the resolver yields NULL),
uppercase, compose with the modifier prefix and prepend the held mouse
button if any.  Returns the rendered message, if one is printed. -/
def keyPressMessage (plat : Nat → Option String) (m : ModifierState)
    (mouse_button_pressed : Nat) (keysym : Nat) : Option String :=
  match keysym_to_string plat keysym with
  | none => none
  | some key_string =>
    let uppercase_key := to_uppercase key_string
    let msg := composeKeyMessage m keysym uppercase_key
    some (if mouse_button_pressed != 0 then
            mouse_button_to_name mouse_button_pressed ++ " + " ++ msg
          else msg)

/-- termkey.c `event_callback` (lines 443-544) as a state transformer,
returning the new globals and the message printed by `print_centered`,
if any. -/
def event_callback (plat : Nat → Option String) (s : AppState) (e : XEvent) :
    AppState × Option String :=
  match e with
  | .buttonPress detail =>
    ({ s with mouse_button_pressed := detail },
     some (mouse_button_to_name detail))
  | .buttonRelease _ => ({ s with mouse_button_pressed := 0 }, none)
  | .keyPress keysym =>
    let s' := { s with mods := update_modifier_state keysym true s.mods }
    (s', keyPressMessage plat s'.mods s'.mouse_button_pressed keysym)
  | .keyRelease keysym =>
    ({ s with mods := update_modifier_state keysym false s.mods }, none)

/-- Run a sequence of intercepted events, collecting every printed
message in order. -/
def runEvents (plat : Nat → Option String) (s : AppState) :
    List XEvent → AppState × List String
  | [] => (s, [])
  | e :: es =>
    let (s', out) := event_callback plat s e
    let (s'', outs) := runEvents plat s' es
    (s'', (out.toList) ++ outs)

end Termkey

namespace EnumV

/-!
The first variant inside `src/unnamed/part_003` (and, without the
AltGr/Super slots, `src/unnamed/part_001`): modifier state kept in an array
indexed by the `ModifierKey` enum, prefix built by
`build_modifiers_message`, plus terminal-resize handling via `SIGWINCH`.
The enum-indexed array of flags is modelled by the same `ModifierState`
record (slot `i` of the enum is field `i`).
-/

/-- The `ModifierKey` enum order of part_003 lines 34-47: Shift-L, Shift-R,
Control-L, Control-R, Alt-L, Alt-R, Meta-L, Meta-R, AltGr, Super-L,
Super-R — the order in which `build_modifiers_message` iterates. -/
def enumOrder : List ModId :=
  [.shiftL, .shiftR, .ctrlL, .ctrlR, .altL, .altR,
   .metaL, .metaR, .altGr, .superL, .superR]

/-- `build_modifiers_message` (part_003 lines 467-496): for each enum slot
in order, when the flag is set and the slot's keysym differs from the key
being composed, append `keysym_to_string` of the slot's keysym (always the
special-map name for these eleven keysyms) followed by `" + "`. -/
def build_modifiers_message (s : ModifierState) (current_keysym : Nat) :
    String :=
  String.join
    (((enumOrder.filter
        (fun md => s.get md && md.keysym != current_keysym)).map
      ModId.name).map (fun n => n ++ " + "))

/-- `mouse_button_to_name` of this variant (part_003 lines 425-434),
identical to termkey.c's table. -/
def mouse_button_to_name (button : Nat) : String :=
  Termkey.mouse_button_to_name button

/-- The KeyPress composition of part_003's first `event_callback`
(lines 532-583): uppercase the resolved name, prepend
`build_modifiers_message`, show a lone modifier by its own name, prepend a
held mouse button. -/
def keyPressMessage (plat : Nat → Option String) (s : ModifierState)
    (mouse_button_pressed : Nat) (keysym : Nat) : Option String :=
  match keysym_to_string plat keysym with
  | none => none
  | some key_string =>
    let uppercase_key := to_uppercase key_string
    let mm := build_modifiers_message s keysym
    let msg :=
      if !(is_modifier_keysym keysym && mm == "") then
        if mm != "" then mm ++ uppercase_key else uppercase_key
      else uppercase_key
    some (if mouse_button_pressed != 0 then
            mouse_button_to_name mouse_button_pressed ++ " + " ++ msg
          else msg)

/-- The globals of part_003's first variant relevant to event handling and
resize: the enum-indexed modifier flags, `mouse_button_pressed`,
`last_message` and the `terminal_resized` flag set by the `SIGWINCH`
handler. -/
structure AppState where
  modifiers_state : ModifierState
  mouse_button_pressed : Nat
  last_message : String
  terminal_resized : Bool
deriving DecidableEq

/-- `handle_resize` (part_003 lines 280-283): only sets the flag. -/
def handle_resize (s : AppState) : AppState :=
  { s with terminal_resized := true }

/-- `print_centered`'s cursor placement (part_003 lines 350-364): the
message is written at row `rows/2`, column `(cols - len)/2 + 1` (C `int`
division truncates toward zero). -/
def print_centered_at (rows cols : Int) (message : String) :
    Int × Int × String :=
  (Int.tdiv rows 2, Int.tdiv (cols - (message.length : Int)) 2 + 1, message)

/-- The resize check of the main event loop (part_003 lines 237-241): when
`terminal_resized` is set, clear the flag and reprint `last_message`
centered in the current terminal dimensions; otherwise do nothing. -/
def loop_resize_check (s : AppState) (rows cols : Int) :
    AppState × Option (Int × Int × String) :=
  if s.terminal_resized then
    ({ s with terminal_resized := false },
     some (print_centered_at rows cols s.last_message))
  else (s, none)

/-- This variant's `event_callback` (part_003 lines 499-589): like
termkey.c's but composing with `build_modifiers_message` and recording
every printed message in `last_message`. -/
def event_callback (plat : Nat → Option String) (s : AppState) (e : XEvent) :
    AppState × Option String :=
  match e with
  | .buttonPress detail =>
    let msg := mouse_button_to_name detail
    ({ s with mouse_button_pressed := detail, last_message := msg },
     some msg)
  | .buttonRelease _ => ({ s with mouse_button_pressed := 0 }, none)
  | .keyPress keysym =>
    let mods' := update_modifier_state keysym true s.modifiers_state
    match keyPressMessage plat mods' s.mouse_button_pressed keysym with
    | none => ({ s with modifiers_state := mods' }, none)
    | some msg =>
      ({ s with modifiers_state := mods', last_message := msg }, some msg)
  | .keyRelease keysym =>
    ({ s with modifiers_state := update_modifier_state keysym false
                s.modifiers_state }, none)

/-- Run a sequence of events, collecting printed messages. -/
def runEvents (plat : Nat → Option String) (s : AppState) :
    List XEvent → AppState × List String
  | [] => (s, [])
  | e :: es =>
    let (s', out) := event_callback plat s e
    let (s'', outs) := runEvents plat s' es
    (s'', out.toList ++ outs)

end EnumV

namespace Pro

/-!
`src/unnamed/part_002`, the "Professional" variant: single mouse button,
total `keysym_to_name` resolver, and key-repeat compression controlled by
`REPEAT_THRESHOLD_MS`.
-/

def REPEAT_THRESHOLD_MS : Int := 100

/-- `mouse_button_name` (part_002 lines 197-206), same table as
termkey.c. -/
def mouse_button_name (btn : Nat) : String :=
  Termkey.mouse_button_to_name btn

/-- The fields of part_002's `AppState` global mutated by
`event_callback`. -/
structure AppState where
  mods : ModifierState
  mouse_pressed : Nat
  last_key : Nat
  key_count : Nat
  last_key_time : Timeval
  last_message : String
deriving DecidableEq

def AppState.initial : AppState :=
  ⟨ModifierState.initial, 0, 0, 0, ⟨0, 0⟩, ""⟩

/-- The key-repeat logic of part_002 `event_callback` (lines 329-349):
given the newly composed `message` for keysym `sym` at `current_time`,
either increment the repeat counter and render `"<message> [x<N>]"` (same
key, same message, not a modifier, gap above the threshold), or reset the
counter to 1 and render the plain message (gap above the threshold, or a
different key, or a different message), or — same key and message within
the threshold — do nothing at all. -/
def key_repeat_step (st : AppState) (sym : Nat) (is_modifier : Bool)
    (message : String) (current_time : Timeval) : AppState × Option String :=
  let time_diff := get_time_diff_ms st.last_key_time current_time
  if sym = st.last_key ∧ message = st.last_message ∧ is_modifier = false ∧
      time_diff > REPEAT_THRESHOLD_MS then
    let cnt := st.key_count + 1
    ({ st with key_count := cnt, last_key_time := current_time },
     some (message ++ " [x" ++ toString cnt ++ "]"))
  else if time_diff > REPEAT_THRESHOLD_MS ∨ sym ≠ st.last_key ∨
      message ≠ st.last_message then
    ({ st with last_key := sym, key_count := 1,
               last_key_time := current_time, last_message := message },
     some message)
  else (st, none)

/-- part_002 `event_callback` (lines 236-357).  KeyPress composes the
modifier prefix in the same Ctrl-first order as termkey.c (lines 281-313),
appends the uppercased key name unconditionally (lines 315-318), prepends
a held mouse button, and runs the repeat logic; ButtonPress renders the
button name and resets the repeat tracking; ButtonRelease only clears
`mouse_pressed`. -/
def event_callback (plat : Nat → Option String) (s : AppState) (e : XEvent)
    (now : Timeval) : AppState × Option String :=
  match e with
  | .buttonPress detail =>
    ({ s with mouse_pressed := detail, last_key := 0, key_count := 0 },
     some (mouse_button_name detail))
  | .buttonRelease _ => ({ s with mouse_pressed := 0 }, none)
  | .keyRelease sym =>
    ({ s with mods := update_modifier_state sym false s.mods }, none)
  | .keyPress sym =>
    let s' := { s with mods := update_modifier_state sym true s.mods }
    let key_name := keysym_to_name plat sym
    if key_name.length = 0 then (s', none)
    else
      let upper_key := to_uppercase key_name
      let mod_msg := modifiers_message s'.mods sym ++ upper_key
      let message :=
        if s'.mouse_pressed != 0 then
          mouse_button_name s'.mouse_pressed ++ " + " ++ mod_msg
        else mod_msg
      key_repeat_step s' sym (is_modifier_keysym sym) message now

/-- Run a sequence of timestamped events, collecting printed messages. -/
def runEvents (plat : Nat → Option String) (s : AppState) :
    List (XEvent × Timeval) → AppState × List String
  | [] => (s, [])
  | (e, t) :: es =>
    let (s', out) := event_callback plat s e t
    let (s'', outs) := runEvents plat s' es
    (s'', out.toList ++ outs)

end Pro

namespace Multi

/-!
The third variant inside `src/unnamed/part_003` ("v2.0"): multi-button
mouse tracker with simultaneous-click detection.
-/

def MAX_MOUSE_BUTTONS : Nat := 16
def MULTI_CLICK_TIMEOUT_MS : Int := 50

/-- `mouse_button_name` of the v2.0 variant (part_003 lines 1173-1192) —
note the names are "CLICK LEFT", "CLICK MIDDLE", "CLICK RIGHT", not
"LEFT CLICK" etc. -/
def mouse_button_name (btn : Nat) : String :=
  if btn == 1 then "CLICK LEFT"
  else if btn == 2 then "CLICK MIDDLE"
  else if btn == 3 then "CLICK RIGHT"
  else if btn == 4 then "WHEEL UP"
  else if btn == 5 then "WHEEL DOWN"
  else if btn == 6 then "CLICK BUTTON 6"
  else if btn == 7 then "CLICK BUTTON 7"
  else if btn == 8 then "CLICK BUTTON 8"
  else if btn == 9 then "CLICK BUTTON 9"
  else if btn == 10 then "CLICK BUTTON 10"
  else if btn == 11 then "CLICK BUTTON 11"
  else if btn == 12 then "CLICK BUTTON 12"
  else if btn == 13 then "CLICK BUTTON 13"
  else if btn == 14 then "CLICK BUTTON 14"
  else if btn == 15 then "CLICK BUTTON 15"
  else "CLICK UNKNOWN"

/-- `app.mouse_state` (part_003 lines 986-991): the per-button pressed
flags (an array of `MAX_MOUSE_BUTTONS` ints), the active count, the last
press time and the stored combined message. -/
structure MouseState where
  buttons : List Bool
  active_count : Int
  last_press_time : Timeval
  combined_message : String
deriving DecidableEq

/-- The fields of the v2.0 `AppState` touched by the mouse handlers
(`update_mouse_display` also resets the key-repeat tracking). -/
structure AppState where
  mouse_state : MouseState
  last_key : Nat
  key_count : Int
deriving DecidableEq

def AppState.initial : AppState :=
  ⟨⟨List.replicate MAX_MOUSE_BUTTONS false, 0, ⟨0, 0⟩, ""⟩, 0, 0⟩

/-- `is_mouse_multi_click_timeout` (part_003 lines 1195-1200): still within
the multi-click window? -/
def is_mouse_multi_click_timeout (ms : MouseState) (now : Timeval) : Bool :=
  decide (get_time_diff_ms ms.last_press_time now ≤ MULTI_CLICK_TIMEOUT_MS)

/-- `update_mouse_display` (part_003 lines 1242-1271): if no button is
active do nothing; otherwise join the names of the pressed buttons, in
ascending id order (the loop runs i = 1 .. 15), with `" + "`, store the
result in `combined_message`, print it, and reset the key-repeat
tracking. -/
def update_mouse_display (s : AppState) : AppState × Option String :=
  if s.mouse_state.active_count = 0 then (s, none)
  else
    let message := String.intercalate " + "
      ((((List.range MAX_MOUSE_BUTTONS).drop 1).filter
          (fun i => s.mouse_state.buttons.getD i false)).map
        mouse_button_name)
    ({ s with
        mouse_state := { s.mouse_state with combined_message := message },
        last_key := 0, key_count := 0 },
     some message)

/-- `handle_mouse_button_press` (part_003 lines 1203-1224): out-of-range
buttons are ignored; a press outside the multi-click window with no active
buttons first clears stale state; an unpressed button is marked pressed,
the count incremented and the press time recorded; then the display is
updated. -/
def handle_mouse_button_press (s : AppState) (button : Nat) (now : Timeval) :
    AppState × Option String :=
  if button < 1 ∨ MAX_MOUSE_BUTTONS ≤ button then (s, none)
  else
    let ms := s.mouse_state
    let ms :=
      if ¬ is_mouse_multi_click_timeout ms now ∧ ms.active_count = 0 then
        { ms with buttons := List.replicate MAX_MOUSE_BUTTONS false,
                  active_count := 0, combined_message := "" }
      else ms
    let ms :=
      if ¬ ms.buttons.getD button false then
        { ms with buttons := ms.buttons.set button true,
                  active_count := ms.active_count + 1,
                  last_press_time := now }
      else ms
    update_mouse_display { s with mouse_state := ms }

/-- `handle_mouse_button_release` (part_003 lines 1227-1239): out-of-range
buttons are ignored; a pressed button is cleared and the count
decremented; when the count reaches zero all flags are cleared.  The
stored `combined_message` is left as it is and nothing is printed. -/
def handle_mouse_button_release (s : AppState) (button : Nat) : AppState :=
  if button < 1 ∨ MAX_MOUSE_BUTTONS ≤ button then s
  else
    let ms := s.mouse_state
    if ms.buttons.getD button false then
      let ms := { ms with buttons := ms.buttons.set button false,
                          active_count := ms.active_count - 1 }
      let ms :=
        if ms.active_count ≤ 0 then
          { ms with active_count := 0,
                    buttons := List.replicate MAX_MOUSE_BUTTONS false }
        else ms
      { s with mouse_state := ms }
    else s

/-- The ButtonPress arm of the v2.0 `event_callback` (part_003
lines 1311-1312). -/
def buttonPressEvent (s : AppState) (detail : Nat) (now : Timeval) :
    AppState × Option String :=
  handle_mouse_button_press s detail now

/-- The ButtonRelease arm of the v2.0 `event_callback` (part_003
lines 1313-1314): only the release handler runs; nothing is printed. -/
def buttonReleaseEvent (s : AppState) (detail : Nat) :
    AppState × Option String :=
  (handle_mouse_button_release s detail, none)

end Multi

/-! ### Command-line parsing and startup (for the color-validation claim) -/

/-- The nine color names of every variant's color table. -/
def colorNames : List String :=
  ["black", "red", "green", "yellow", "blue", "magenta", "cyan", "white",
   "default"]

namespace Termkey

/-- `color_name_to_code` (termkey.c lines 287-311): the ANSI code for a
recognized name, NULL otherwise. -/
def color_name_to_code (color_name : String) (is_background : Bool) :
    Option String :=
  if color_name == "black" then some (if is_background then "\x1b[40m" else "\x1b[30m")
  else if color_name == "red" then some (if is_background then "\x1b[41m" else "\x1b[31m")
  else if color_name == "green" then some (if is_background then "\x1b[42m" else "\x1b[32m")
  else if color_name == "yellow" then some (if is_background then "\x1b[43m" else "\x1b[33m")
  else if color_name == "blue" then some (if is_background then "\x1b[44m" else "\x1b[34m")
  else if color_name == "magenta" then some (if is_background then "\x1b[45m" else "\x1b[35m")
  else if color_name == "cyan" then some (if is_background then "\x1b[46m" else "\x1b[36m")
  else if color_name == "white" then some (if is_background then "\x1b[47m" else "\x1b[37m")
  else if color_name == "default" then some (if is_background then "\x1b[49m" else "\x1b[39m")
  else none

/-- The color configuration globals of termkey.c (lines 49-52), with their
initial values `use_color = 0`, `bg = fg = "default"`, `text = ""`. -/
structure Config where
  use_color : Bool
  bg_color_name : String
  fg_color_name : String
  letter_color_name : String
deriving DecidableEq

def Config.initial : Config := ⟨false, "default", "default", ""⟩

/-- Is an argument one of the named color options consumed by the inner
`while` loop after `-c` (termkey.c lines 155-171)? -/
def isColorOptionArg (a : String) : Bool :=
  strStartsWith a "--bg=" || strStartsWith a "--fg=" || strStartsWith a "--text="

/-- Apply one `--bg=`/`--fg=`/`--text=` argument to the configuration
(termkey.c lines 156-164). -/
def applyColorOptionArg (cfg : Config) (a : String) : Config :=
  if strStartsWith a "--bg=" then { cfg with bg_color_name := strDrop a 5 }
  else if strStartsWith a "--fg=" then { cfg with fg_color_name := strDrop a 5 }
  else if strStartsWith a "--text=" then
    { cfg with letter_color_name := strDrop a 7 }
  else cfg

/-- The validation after a `-c` block (termkey.c lines 173-182): a
non-empty, non-"default" name with no table entry is invalid. -/
def colorsInvalid (cfg : Config) : Bool :=
  (cfg.bg_color_name.length > 0 && cfg.bg_color_name != "default" &&
    (color_name_to_code cfg.bg_color_name true).isNone) ||
  (cfg.fg_color_name.length > 0 && cfg.fg_color_name != "default" &&
    (color_name_to_code cfg.fg_color_name false).isNone) ||
  (cfg.letter_color_name.length > 0 && cfg.letter_color_name != "default" &&
    (color_name_to_code cfg.letter_color_name false).isNone)

/-- How termkey.c's argument loop terminates.  `usageExit` is
`print_usage`, which ends in `exit(EXIT_SUCCESS)` — also reached for an
unknown option, after printing the error carried here.
`invalidColorExit` is the `exit(EXIT_FAILURE)` of line 181 after printing
"Invalid color name(s) provided." (the message does not name the value).
`run` means parsing finished and `main` goes on to open the X displays. -/
inductive ParseResult where
  | usageExit (err : Option String)
  | invalidColorExit
  | run (cfg : Config)
deriving DecidableEq

/-- The exit status implied by each parse outcome (`none` = the program
keeps running). -/
def exitStatus : ParseResult → Option Nat
  | .usageExit _ => some 0
  | .invalidColorExit => some 1
  | .run _ => none

/-- The argument loop of termkey.c `main` (lines 143-191), with the
program position encoded in the first parameter: `true` means the inner
`while` loop after a `-c` (lines 155-171) is consuming the named color
options; leaving that loop (on a non-color argument or at the end of the
command line) runs the validation of lines 173-182, and the outer loop
then continues at the non-color argument.  `-h`/`--help` and unknown
options reach `print_usage` (exit 0), the latter after an
"Unknown option" message (lines 184-190). -/
def parseArgsGo : Bool → Config → List String → ParseResult
  | true, cfg, [] => if colorsInvalid cfg then .invalidColorExit else .run cfg
  | false, _cfg, [] => .run _cfg
  | true, cfg, a :: rest =>
    if isColorOptionArg a then parseArgsGo true (applyColorOptionArg cfg a) rest
    else if colorsInvalid cfg then .invalidColorExit
    else if a == "-c" || a == "--color" then
      if rest.isEmpty then .usageExit none
      else parseArgsGo true { cfg with use_color := true } rest
    else if a == "-h" || a == "--help" then .usageExit none
    else .usageExit (some ("Unknown option: " ++ a))
  | false, cfg, a :: rest =>
    if a == "-c" || a == "--color" then
      if rest.isEmpty then .usageExit none
      else parseArgsGo true { cfg with use_color := true } rest
    else if a == "-h" || a == "--help" then .usageExit none
    else .usageExit (some ("Unknown option: " ++ a))

/-- termkey.c's argument parsing, entered outside any `-c` block. -/
def parseArgs (args : List String) (cfg : Config) : ParseResult :=
  parseArgsGo false cfg args

end Termkey

namespace Pro

/-- `validate_color` (part_002 lines 128-135): NULL, empty and "default"
are accepted, otherwise the name must be in the color table. -/
def validate_color (color : String) : Bool :=
  color.length == 0 || color == "default" || colorNames.contains color

/-- The color configuration of part_002 (`app.use_color`, `app.bg_color`,
`app.fg_color`), initialized to defaults by `parse_args`
(lines 377-380). -/
structure Config where
  use_color : Bool
  bg_color : String
  fg_color : String
deriving DecidableEq

def Config.initial : Config := ⟨false, "default", "default"⟩

/-- How part_002's `parse_args` (lines 376-411) terminates: success with a
configuration, `print_usage` (exit 0) for `-h`/`--help`, or failure with
the specific stderr message (`main` then returns `EXIT_FAILURE`). -/
inductive ParseResult where
  | ok (cfg : Config)
  | usageExit
  | fail (msg : String)
deriving DecidableEq

/-- part_002 `parse_args` (lines 376-411): one argument at a time;
`--bg=`/`--fg=` values are validated immediately and a bad value fails
with a message naming it. -/
def parse_args : List String → Config → ParseResult
  | [], cfg => .ok cfg
  | a :: rest, cfg =>
    if a == "-c" || a == "--color" then
      parse_args rest { cfg with use_color := true }
    else if strStartsWith a "--bg=" then
      let color := strDrop a 5
      if validate_color color then
        parse_args rest { cfg with use_color := true, bg_color := color }
      else .fail ("Error: Invalid background color \x27" ++ color ++ "\x27")
    else if strStartsWith a "--fg=" then
      let color := strDrop a 5
      if validate_color color then
        parse_args rest { cfg with use_color := true, fg_color := color }
      else .fail ("Error: Invalid foreground color \x27" ++ color ++ "\x27")
    else if a == "-h" || a == "--help" then .usageExit
    else .fail ("Error: Unknown option \x27" ++ a ++ "\x27")

/-- The startup phase of part_002 `main` (lines 414-476): `parse_args`
runs first; on failure `main` returns `EXIT_FAILURE` (status 1) without
ever calling `XOpenDisplay`; `print_usage` exits 0; only on success does
`main` open the X displays and set up the event connection. -/
inductive MainStart where
  | earlyExit (status : Nat) (msg : Option String)
  | opensDisplays (cfg : Config)
deriving DecidableEq

def mainStart (args : List String) : MainStart :=
  match parse_args args Config.initial with
  | .fail msg => .earlyExit 1 (some msg)
  | .usageExit => .earlyExit 0 none
  | .ok cfg => .opensDisplays cfg

end Pro

/-! ## Theorems -/

/-- The eleven modifier display names are pairwise distinct. -/
theorem ModId.name_injective (m m' : ModId) (h : m.name = m'.name) : m = m' := by
  revert h
  revert m m'
  decide

/-- C1 (amended).  In termkey.c's composer the held modifiers appear in the
prefix in the fixed order Ctrl-L, Ctrl-R, Alt-L, Alt-R, Shift-L, Shift-R,
Meta-L, Meta-R, AltGr, Super-L, Super-R (`modOrder`) regardless of press
order — in particular, Shift-L pressed before Ctrl-L and then key A gives
the label "CONTROL_L + SHIFT_L + A", the same final label as the opposite
press order.  The `build_modifiers_message` variant (part_001 and the first
variant of part_003), however, emits held modifiers in its `ModifierKey`
enum order, which begins with Shift: the same scenario there gives
"SHIFT_L + CONTROL_L + A". -/
theorem C1_modifier_order :
    (∀ (s : ModifierState) (keysym : Nat),
        List.Sublist (modMsgParts s keysym) (modOrder.map ModId.name)) ∧
    (Termkey.runEvents xKeysymToStringModel Termkey.AppState.initial
        [.keyPress xkShiftL, .keyPress xkControlL, .keyPress xkLowerA]).2
      = ["SHIFT_L", "SHIFT_L + CONTROL_L", "CONTROL_L + SHIFT_L + A"] ∧
    (Termkey.runEvents xKeysymToStringModel Termkey.AppState.initial
        [.keyPress xkControlL, .keyPress xkShiftL, .keyPress xkLowerA]).2
      = ["CONTROL_L", "CONTROL_L + SHIFT_L", "CONTROL_L + SHIFT_L + A"] ∧
    (EnumV.runEvents xKeysymToStringModel
        ⟨ModifierState.initial, 0, "Termkey", false⟩
        [.keyPress xkShiftL, .keyPress xkControlL, .keyPress xkLowerA]).2
      = ["SHIFT_L", "SHIFT_L + CONTROL_L", "SHIFT_L + CONTROL_L + A"] := by
  refine ⟨?_, by decide, by decide, by decide⟩
  intro s keysym
  exact List.Sublist.map ModId.name (List.filter_sublist modOrder)

/-- C1, counterexample to the claim as stated: in the
`build_modifiers_message` variant of part_003 (a cited source of the
claim), with Shift-L pressed before Ctrl-L and then key A, the composed
label is "SHIFT_L + CONTROL_L + A", not "CONTROL_L + SHIFT_L + A". -/
theorem C1_counterexample :
    (EnumV.runEvents xKeysymToStringModel
        ⟨ModifierState.initial, 0, "Termkey", false⟩
        [.keyPress xkShiftL, .keyPress xkControlL, .keyPress xkLowerA]).2
      = ["SHIFT_L", "SHIFT_L + CONTROL_L", "SHIFT_L + CONTROL_L + A"] ∧
    "SHIFT_L + CONTROL_L + A" ≠ "CONTROL_L + SHIFT_L + A" := by
  exact ⟨by decide, by decide⟩

/-- C2.  The modifier prefix never contains the modifier that is itself the
key being composed, so no composed label describes a modifier with itself:
holding only Left-Shift and pressing it renders exactly "SHIFT_L". -/
theorem C2_no_self_modifier :
    (∀ (s : ModifierState) (m : ModId), m.name ∉ modMsgParts s m.keysym) ∧
    (Termkey.runEvents xKeysymToStringModel Termkey.AppState.initial
        [.keyPress xkShiftL]).2 = ["SHIFT_L"] := by
  refine ⟨?_, by decide⟩
  intro s m hmem
  simp only [modMsgParts, List.mem_map, List.mem_filter] at hmem
  obtain ⟨m', ⟨_, hguard⟩, hname⟩ := hmem
  cases ModId.name_injective m' m hname
  simp [bne_self_eq_false] at hguard

/-- Every name in the override table is non-empty. -/
theorem special_key_map_names_nonempty :
    ∀ p ∈ special_key_map, 0 < p.2.length := by
  decide

/-- C3 (amended).  `keysym_to_name` (part_002/part_003 v2.0) is pure and
total: it yields "UNKNOWN" exactly when neither the override table nor the
platform has a name for the code, and it yields a non-empty string for
every code whenever the platform's own symbols are non-empty.
`keysym_to_string` (termkey.c/part_001/part_003 first variant), in
contrast, returns NULL (here `none`) precisely when the override table and
the platform both have nothing — its caller then drops the event. -/
theorem C3_resolver_totality :
    (∀ (plat : Nat → Option String) (k : Nat),
        specialLookup k = none → plat k = none →
        keysym_to_name plat k = "UNKNOWN") ∧
    (∀ (plat : Nat → Option String) (k : Nat),
        (∀ s, plat k = some s → 0 < s.length) →
        0 < (keysym_to_name plat k).length) ∧
    (∀ (plat : Nat → Option String) (k : Nat),
        keysym_to_string plat k = none ↔
          (specialLookup k = none ∧ plat k = none)) := by
  refine ⟨?_, ?_, ?_⟩
  · intro plat k h1 h2
    simp [keysym_to_name, h1, h2]
  · intro plat k h
    unfold keysym_to_name
    cases hsl : specialLookup k with
    | some n =>
      have hfind :
          (special_key_map.find? (fun p => p.1 == k)).map (·.2) = some n := hsl
      obtain ⟨p, hp, hpn⟩ := Option.map_eq_some'.mp hfind
      have := special_key_map_names_nonempty p (List.mem_of_find?_eq_some hp)
      simpa [hpn] using this
    | none =>
      cases hp : plat k with
      | some s => exact h s hp
      | none => decide
  · intro plat k
    unfold keysym_to_string
    cases specialLookup k <;> simp

/-- C3 witness: key code 0 (`NoSymbol`) has no override entry and no
platform symbol in the modelled platform table, and `keysym_to_name`
resolves it to the non-empty literal "UNKNOWN". -/
theorem C3_witness :
    keysym_to_name xKeysymToStringModel 0 = "UNKNOWN" ∧
    0 < (keysym_to_name xKeysymToStringModel 0).length := by
  constructor
  · exact C3_resolver_totality.1 xKeysymToStringModel 0 (by decide) rfl
  · exact C3_resolver_totality.2.1 xKeysymToStringModel 0
      (by intro s h; simp [xKeysymToStringModel, xkLowerA, xkLowerB] at h)

/-- C3, counterexample to the claim as stated: termkey.c's
`keysym_to_string` (a cited source of the claim) is not total — for key
code 0, which has no override entry and no platform symbol, it returns
NULL (`none`), not "UNKNOWN"; the event is then silently dropped. -/
theorem C3_counterexample :
    keysym_to_string xKeysymToStringModel 0 = none ∧
    (Termkey.event_callback xKeysymToStringModel Termkey.AppState.initial
        (.keyPress 0)).2 = none := by
  exact ⟨by decide, by decide⟩

/-- C4 (amended).  part_002's repeat logic: (a) when the key and the
composed message equal the previous ones, the key is not a pure modifier
and the gap exceeds `REPEAT_THRESHOLD_MS`, the counter is incremented and
the render carries the " [x<N>]" suffix; (b) any change of key or of
message resets the counter to 1 and renders the plain message; (c) a pure
modifier never increments the counter and never gets a counted render;
(d) a press of the same key with the same message within the threshold
renders nothing at all and leaves the whole repeat state unchanged (the
claim's "restart at 1 and render plain" does not happen there). -/
theorem C4_repeat_compression :
    (∀ (st : Pro.AppState) (sym : Nat) (b : Bool) (msg : String) (now : Timeval),
        sym = st.last_key → msg = st.last_message → b = false →
        get_time_diff_ms st.last_key_time now > Pro.REPEAT_THRESHOLD_MS →
        Pro.key_repeat_step st sym b msg now =
          ({ st with key_count := st.key_count + 1, last_key_time := now },
           some (msg ++ " [x" ++ toString (st.key_count + 1) ++ "]"))) ∧
    (∀ (st : Pro.AppState) (sym : Nat) (b : Bool) (msg : String) (now : Timeval),
        sym ≠ st.last_key ∨ msg ≠ st.last_message →
        Pro.key_repeat_step st sym b msg now =
          ({ st with last_key := sym, key_count := 1,
                     last_key_time := now, last_message := msg },
           some msg)) ∧
    (∀ (st : Pro.AppState) (sym : Nat) (msg : String) (now : Timeval),
        ((Pro.key_repeat_step st sym true msg now).1.key_count = 1 ∨
          (Pro.key_repeat_step st sym true msg now).1.key_count = st.key_count) ∧
        ((Pro.key_repeat_step st sym true msg now).2 = some msg ∨
          (Pro.key_repeat_step st sym true msg now).2 = none)) ∧
    (∀ (st : Pro.AppState) (sym : Nat) (b : Bool) (msg : String) (now : Timeval),
        sym = st.last_key → msg = st.last_message →
        ¬ get_time_diff_ms st.last_key_time now > Pro.REPEAT_THRESHOLD_MS →
        Pro.key_repeat_step st sym b msg now = (st, none)) := by
  refine ⟨?_, ?_, ?_, ?_⟩
  · intro st sym b msg now h1 h2 h3 h4
    simp [Pro.key_repeat_step, h1, h2, h3, h4]
  · intro st sym b msg now h
    rcases h with h | h <;> simp [Pro.key_repeat_step, h]
  · intro st sym msg now
    simp only [Pro.key_repeat_step]
    rw [if_neg (by simp)]
    split <;> simp
  · intro st sym b msg now h1 h2 h3
    simp [Pro.key_repeat_step, h1, h2, h3]

/-- C4 witness: a concrete auto-repeat — previous render "A" for key 0x61
with counter 1 at time 0, the same composed message "A" for the same key
200 ms later — increments the counter and renders "A [x2]". -/
theorem C4_witness :
    Pro.key_repeat_step ⟨ModifierState.initial, 0, 0x61, 1, ⟨0, 0⟩, "A"⟩
        0x61 false "A" ⟨0, 200000⟩ =
      (⟨ModifierState.initial, 0, 0x61, 2, ⟨0, 200000⟩, "A"⟩,
       some "A [x2]") := by
  exact C4_repeat_compression.1 _ _ _ _ _ rfl rfl rfl (by decide)

/-- C4, counterexample to the claim as stated: with the previous render
"A" for key 0x61, counter 2, a new press of the same key with the same
composed message only 50 ms later leaves the counter at 2 and renders
nothing — it does not restart the counter at 1 and does not render the
plain label, contrary to the claim's "a gap smaller than the threshold
restarts the counter at 1 and renders the plain label". -/
theorem C4_counterexample :
    Pro.key_repeat_step ⟨ModifierState.initial, 0, 0x61, 2, ⟨0, 0⟩, "A"⟩
        0x61 false "A" ⟨0, 50000⟩ =
      (⟨ModifierState.initial, 0, 0x61, 2, ⟨0, 0⟩, "A"⟩, none) ∧
    ¬ ((Pro.key_repeat_step ⟨ModifierState.initial, 0, 0x61, 2, ⟨0, 0⟩, "A"⟩
          0x61 false "A" ⟨0, 50000⟩).1.key_count = 1 ∧
       (Pro.key_repeat_step ⟨ModifierState.initial, 0, 0x61, 2, ⟨0, 0⟩, "A"⟩
          0x61 false "A" ⟨0, 50000⟩).2 = some "A") := by
  exact ⟨by decide, by decide⟩

/-- C5 (amended).  Holding key A: repeated KeyDown events increment the
visible counter only when the gaps exceed the repeat threshold — the
first event renders "A", a second press of A 200 ms later renders
"A [x2]"; an intervening KeyUp/KeyDown of a different key (B) resets the
counter to 1 and renders "B", and pressing A again renders plain "A" with
the counter back at 1.  A second press of A within the threshold (50 ms)
renders nothing at all. -/
theorem C5_repeat_trace :
    (Pro.runEvents xKeysymToStringModel Pro.AppState.initial
        [(.keyPress xkLowerA, ⟨1, 0⟩), (.keyPress xkLowerA, ⟨1, 200000⟩),
         (.keyRelease xkLowerA, ⟨1, 300000⟩),
         (.keyPress xkLowerB, ⟨1, 400000⟩),
         (.keyPress xkLowerA, ⟨1, 600000⟩)]).2
      = ["A", "A [x2]", "B", "A"] ∧
    (Pro.runEvents xKeysymToStringModel Pro.AppState.initial
        [(.keyPress xkLowerA, ⟨1, 0⟩), (.keyPress xkLowerA, ⟨1, 200000⟩),
         (.keyRelease xkLowerA, ⟨1, 300000⟩),
         (.keyPress xkLowerB, ⟨1, 400000⟩),
         (.keyPress xkLowerA, ⟨1, 600000⟩)]).1.key_count = 1 ∧
    (Pro.runEvents xKeysymToStringModel Pro.AppState.initial
        [(.keyPress xkLowerA, ⟨1, 0⟩), (.keyPress xkLowerA, ⟨1, 50000⟩)]).2
      = ["A"] := by
  exact ⟨by decide, by decide, by decide⟩

/-- C5, counterexample to the claim as stated: with gaps *below* the
repeat threshold, the second KeyDown of A renders nothing — not "A [x2]".
(First press at 1 s renders "A"; second press 50 ms later produces no
output and the counter stays at 1.) -/
theorem C5_counterexample :
    (Pro.event_callback xKeysymToStringModel
        (Pro.event_callback xKeysymToStringModel Pro.AppState.initial
          (.keyPress xkLowerA) ⟨1, 0⟩).1
        (.keyPress xkLowerA) ⟨1, 50000⟩).2 = none ∧
    (none : Option String) ≠ some "A [x2]" := by
  exact ⟨by decide, by decide⟩

/-- C6 (amended).  In the multi-button tracker of part_003 v2.0, pressing
buttons 1 and 3 together renders "CLICK LEFT + CLICK RIGHT" — the button
names joined with " + " in ascending numeric id order, but spelled
"CLICK LEFT"/"CLICK RIGHT", not "LEFT CLICK"/"RIGHT CLICK".  Releasing
button 1 while 3 remains held removes button 1 from the tracked set
(leaving exactly button 3 active) but renders nothing: a ButtonRelease
never produces output, and the stored combined message stays as it was
until the next press. -/
theorem C6_multi_button :
    (Multi.buttonPressEvent
        (Multi.buttonPressEvent Multi.AppState.initial 1 ⟨0, 0⟩).1
        3 ⟨0, 10000⟩).2 = some "CLICK LEFT + CLICK RIGHT" ∧
    Multi.buttonReleaseEvent
        (Multi.buttonPressEvent
          (Multi.buttonPressEvent Multi.AppState.initial 1 ⟨0, 0⟩).1
          3 ⟨0, 10000⟩).1 1 =
      (⟨⟨(List.replicate 16 false).set 3 true, 1, ⟨0, 10000⟩,
          "CLICK LEFT + CLICK RIGHT"⟩, 0, 0⟩, none) ∧
    (∀ (s : Multi.AppState) (btn : Nat),
        (Multi.buttonReleaseEvent s btn).2 = none) := by
  refine ⟨by decide, by decide, ?_⟩
  intro s btn
  rfl

/-- C6, counterexample to the claim as stated: with buttons 1 and 3 held
simultaneously, the rendered label is "CLICK LEFT + CLICK RIGHT", not
"LEFT CLICK + RIGHT CLICK"; and the subsequent release of button 1
renders nothing (no "RIGHT CLICK" update), it only mutates the tracked
set. -/
theorem C6_counterexample :
    (Multi.buttonPressEvent
        (Multi.buttonPressEvent Multi.AppState.initial 1 ⟨0, 0⟩).1
        3 ⟨0, 10000⟩).2 ≠ some "LEFT CLICK + RIGHT CLICK" ∧
    (Multi.buttonReleaseEvent
        (Multi.buttonPressEvent
          (Multi.buttonPressEvent Multi.AppState.initial 1 ⟨0, 0⟩).1
          3 ⟨0, 10000⟩).1 1).2 ≠ some "RIGHT CLICK" := by
  exact ⟨by decide, by decide⟩

/-- C7 (amended).  In part_002, whenever `parse_args` fails — in
particular for an unrecognized `--bg=` value, which fails with a message
naming the value — `main` exits with status 1 before any X display or
event connection is opened.  In termkey.c, an invalid color name after
`-c` also exits with status 1, but with the generic message "Invalid
color name(s) provided." that does not name the value. -/
theorem C7_invalid_color :
    (∀ (args : List String) (msg : String),
        Pro.parse_args args Pro.Config.initial = .fail msg →
        Pro.mainStart args = .earlyExit 1 (some msg)) ∧
    Pro.parse_args ["--bg=purple"] Pro.Config.initial =
      .fail "Error: Invalid background color \x27purple\x27" ∧
    Termkey.parseArgs ["-c", "--bg=purple"] Termkey.Config.initial =
      .invalidColorExit ∧
    Termkey.exitStatus .invalidColorExit = some 1 := by
  refine ⟨?_, by decide, by decide, rfl⟩
  intro args msg h
  simp [Pro.mainStart, h]

/-- C7 witness: the command line `--bg=purple` makes part_002's `main`
exit with status 1, carrying the message that names the invalid value,
before any display is opened. -/
theorem C7_witness :
    Pro.mainStart ["--bg=purple"] =
      .earlyExit 1 (some "Error: Invalid background color \x27purple\x27") := by
  exact C7_invalid_color.1 ["--bg=purple"]
    "Error: Invalid background color \x27purple\x27" (by decide)

/-- C7, counterexample to the claim as stated: in termkey.c the command
line `--bg=purple` (not preceded by `-c`) contains an invalid color-name
argument, yet the process prints "Unknown option: --bg=purple", shows the
usage text and exits with status 0 — not a non-zero status, and with no
message identifying an invalid color name. -/
theorem C7_counterexample :
    Termkey.parseArgs ["--bg=purple"] Termkey.Config.initial =
      .usageExit (some "Unknown option: --bg=purple") ∧
    Termkey.exitStatus
        (Termkey.parseArgs ["--bg=purple"] Termkey.Config.initial) =
      some 0 := by
  exact ⟨by decide, by decide⟩

/-- C8.  A terminal-resize notification (the `SIGWINCH` handler sets
`terminal_resized`; the main loop observes it) re-renders exactly the
last composed label, recomputed at the center of the new dimensions
(row `rows/2`, column `(cols - len)/2 + 1`), and leaves every piece of
tracked state — the modifier flags, the mouse-button state and the last
label itself — unchanged; only the resize flag is cleared. -/
theorem C8_resize_rerenders_last_label :
    ∀ (s : EnumV.AppState) (rows cols : Int),
      EnumV.loop_resize_check (EnumV.handle_resize s) rows cols =
        ({ s with terminal_resized := false },
         some (Int.tdiv rows 2,
               Int.tdiv (cols - (s.last_message.length : Int)) 2 + 1,
               s.last_message)) ∧
      (EnumV.loop_resize_check (EnumV.handle_resize s) rows cols).1.modifiers_state
        = s.modifiers_state ∧
      (EnumV.loop_resize_check (EnumV.handle_resize s) rows cols).1.mouse_button_pressed
        = s.mouse_button_pressed ∧
      (EnumV.loop_resize_check (EnumV.handle_resize s) rows cols).1.last_message
        = s.last_message := by
  intro s rows cols
  refine ⟨?_, by simp [EnumV.loop_resize_check, EnumV.handle_resize],
    by simp [EnumV.loop_resize_check, EnumV.handle_resize],
    by simp [EnumV.loop_resize_check, EnumV.handle_resize]⟩
  simp [EnumV.loop_resize_check, EnumV.handle_resize, EnumV.print_centered_at]

/-- C9 (amended).  `update_modifier_state` sets (never toggles) the slot of
the pressed modifier, so press-then-release of a modifier key restores the
pre-press `ModifierState` exactly when that modifier's slot was not
already set; unconditionally the round trip leaves every other slot
unchanged and forces the pressed modifier's slot to false. -/
theorem C9_press_release_roundtrip :
    (∀ (s : ModifierState) (m : ModId), s.get m = false →
        update_modifier_state m.keysym false
          (update_modifier_state m.keysym true s) = s) ∧
    (∀ (s : ModifierState) (m : ModId),
        (update_modifier_state m.keysym false
          (update_modifier_state m.keysym true s)).get m = false) ∧
    (∀ (s : ModifierState) (m m' : ModId), m ≠ m' →
        (update_modifier_state m.keysym false
          (update_modifier_state m.keysym true s)).get m' = s.get m') := by
  refine ⟨?_, ?_, ?_⟩
  · intro s m h
    cases m <;> cases s <;>
      simp_all [update_modifier_state, ModifierState.get, ModId.keysym,
        xkShiftL, xkShiftR, xkControlL, xkControlR, xkAltL, xkAltR,
        xkMetaL, xkMetaR, xkIsoLevel3Shift, xkSuperL, xkSuperR]
  · intro s m
    cases m <;>
      simp [update_modifier_state, ModifierState.get, ModId.keysym,
        xkShiftL, xkShiftR, xkControlL, xkControlR, xkAltL, xkAltR,
        xkMetaL, xkMetaR, xkIsoLevel3Shift, xkSuperL, xkSuperR]
  · intro s m m' h
    cases m <;> cases m' <;>
      simp_all [update_modifier_state, ModifierState.get, ModId.keysym,
        xkShiftL, xkShiftR, xkControlL, xkControlR, xkAltL, xkAltR,
        xkMetaL, xkMetaR, xkIsoLevel3Shift, xkSuperL, xkSuperR]

/-- C9 witness: from the all-released state, pressing and then releasing
Left-Shift restores the state exactly. -/
theorem C9_witness :
    update_modifier_state xkShiftL false
      (update_modifier_state xkShiftL true ModifierState.initial) =
      ModifierState.initial := by
  exact C9_press_release_roundtrip.1 ModifierState.initial .shiftL rfl

/-- C9, counterexample to the claim as stated: if the Left-Shift slot is
already set before the press (as happens with X11 auto-repeat, which
delivers a second KeyPress while the key is still held), processing a
press followed by a release leaves the slot false — not the pre-press
state. -/
theorem C9_counterexample :
    update_modifier_state xkShiftL false
        (update_modifier_state xkShiftL true
          ⟨true, false, false, false, false, false, false, false, false,
           false, false⟩) ≠
      ⟨true, false, false, false, false, false, false, false, false,
       false, false⟩ := by
  decide

/-- C10.  In the single-button trackers (termkey.c and part_002), any
ButtonRelease unconditionally resets the tracked mouse-button state to 0 —
whichever button was released and whatever was recorded — and prints
nothing; consequently a key pressed after any ButtonRelease composes its
label without a mouse-button prefix (it is exactly the modifier-prefix
label, with no button name prepended). -/
theorem C10_release_clears_tracker :
    (∀ (plat : Nat → Option String) (s : Termkey.AppState) (b : Nat),
        Termkey.event_callback plat s (.buttonRelease b) =
          ({ s with mouse_button_pressed := 0 }, none)) ∧
    (∀ (plat : Nat → Option String) (s : Pro.AppState) (b : Nat)
        (now : Timeval),
        Pro.event_callback plat s (.buttonRelease b) now =
          ({ s with mouse_pressed := 0 }, none)) ∧
    (∀ (plat : Nat → Option String) (s : Termkey.AppState) (b keysym : Nat),
        (Termkey.event_callback plat
            (Termkey.event_callback plat s (.buttonRelease b)).1
            (.keyPress keysym)).2 =
          (keysym_to_string plat keysym).map (fun ks =>
            Termkey.composeKeyMessage
              (update_modifier_state keysym true s.mods) keysym
              (to_uppercase ks))) := by
  refine ⟨fun _ _ _ => rfl, fun _ _ _ _ => rfl, ?_⟩
  intro plat s b keysym
  simp only [Termkey.event_callback, Termkey.keyPressMessage]
  cases keysym_to_string plat keysym <;> simp

end CScreenkey
